import Mathlib

/-!
Verification development for the heuristic scoring engine of the
Heuristic-Analysis repository (backend/services/heuristic_analyzer.py and
the summary classifier of backend/services/analysis_service.py).

The feature maps consumed by the engine are Python dicts read with
`dict.get(key, default)`; every key an evaluator reads has a fixed default,
so a dict (or a whole missing namespace) is equivalent to a record holding
the value-or-default of each consumed key.  Floats are modelled as rationals
(the constants 0.5 and 0.8 and the comparisons are exact), Python ints as
Int, and Python's stable `list.sort(key=..., reverse=True)` as Mathlib's
stable `List.insertionSort` with the non-strict descending-key relation.
-/

/-- html_analysis.heading_analysis: defaults as read by the evaluators. -/
structure HeadingAnalysis where
  has_h1 : Bool := false
  multiple_h1 : Bool := false
  hierarchy_issues : List String := []
deriving DecidableEq

/-- html_analysis.navigation_analysis -/
structure NavigationAnalysis where
  has_breadcrumbs : Bool := false
  duplicate_link_texts : Int := 0
deriving DecidableEq

/-- html_analysis.form_analysis -/
structure FormAnalysis where
  form_count : Int := 0
  unlabeled_count : Int := 0
  has_error_handling : Bool := false
  required_fields : Int := 0
  input_count : Int := 1
deriving DecidableEq

/-- html_analysis.accessibility_analysis -/
structure AccessibilityAnalysis where
  alt_text_coverage : Rat := 1
  aria_elements_count : Int := 0
  landmark_roles_count : Int := 0
  total_images : Int := 0
deriving DecidableEq

/-- html_analysis.meta_analysis -/
structure MetaAnalysis where
  title_length : Int := 0
  description_length : Int := 0
  structured_data_count : Int := 0
  has_og_image : Bool := false
deriving DecidableEq

/-- html_analysis.content_analysis -/
structure ContentAnalysis where
  avg_paragraph_length : Rat := 0
deriving DecidableEq

/-- The html_analysis feature map (value-or-default of every consumed key). -/
structure HtmlFeatures where
  heading_analysis : HeadingAnalysis := {}
  navigation_analysis : NavigationAnalysis := {}
  form_analysis : FormAnalysis := {}
  accessibility_analysis : AccessibilityAnalysis := {}
  meta_analysis : MetaAnalysis := {}
  content_analysis : ContentAnalysis := {}
deriving DecidableEq

/-- image_analysis.above_fold_analysis -/
structure AboveFoldAnalysis where
  has_cta_above_fold : Bool := false
deriving DecidableEq

/-- image_analysis.ocr_analysis -/
structure OcrAnalysis where
  button_texts : List String := []
deriving DecidableEq

/-- image_analysis.contrast_analysis -/
structure ContrastAnalysis where
  has_good_contrast : Bool := true
  is_low_contrast : Bool := false
deriving DecidableEq

/-- image_analysis.visual_density -/
structure VisualDensity where
  is_cluttered : Bool := false
  has_sufficient_whitespace : Bool := true
deriving DecidableEq

/-- image_analysis.element_detection -/
structure ElementDetection where
  button_candidates : Int := 0
  input_candidates : Int := 0
deriving DecidableEq

/-- The image_analysis feature map. -/
structure ImageFeatures where
  above_fold_analysis : AboveFoldAnalysis := {}
  ocr_analysis : OcrAnalysis := {}
  contrast_analysis : ContrastAnalysis := {}
  visual_density : VisualDensity := {}
  element_detection : ElementDetection := {}
deriving DecidableEq

/-- models/analysis.py AnalysisRule. -/
structure AnalysisRule where
  rule_id : String
  category : String
  description : String
  severity : String
  passed : Bool
  score_impact : Int
  recommendation : String
deriving DecidableEq

/-- models/analysis.py HeuristicScore. -/
structure HeuristicScore where
  information_architecture : Int
  cta_visibility : Int
  readability : Int
  form_ux : Int
  accessibility : Int
  performance : Int
deriving DecidableEq

/-- HeuristicScore.total_score: the plain sum of the six category scores. -/
def HeuristicScore.total_score (s : HeuristicScore) : Int :=
  s.information_architecture + s.cta_visibility + s.readability +
    s.form_ux + s.accessibility + s.performance

/-- The dict returned by each category evaluator. -/
structure CategoryResult where
  score : Int
  rules : List AnalysisRule
  max_score : Int
deriving DecidableEq

/-- HeuristicAnalyzer.max_scores (dict lookup, no default in the source). -/
def max_scores (category : String) : Int :=
  if category = "information_architecture" then 30
  else if category = "cta_visibility" then 20
  else if category = "readability" then 20
  else if category = "form_ux" then 15
  else if category = "accessibility" then 10
  else if category = "performance" then 5
  else 0

/- The 26 rule constants, in source declaration order. -/

def ia_001 : AnalysisRule :=
  { rule_id := "ia_001", category := "information_architecture",
    description := "H1見出しが存在しない", severity := "high", passed := false,
    score_impact := -5,
    recommendation := "ページに適切なH1見出しを設定してください" }

def ia_002 : AnalysisRule :=
  { rule_id := "ia_002", category := "information_architecture",
    description := "H1見出しが複数存在", severity := "medium", passed := false,
    score_impact := -3,
    recommendation := "H1見出しは1ページに1つまでにしてください" }

def ia_003 : AnalysisRule :=
  { rule_id := "ia_003", category := "information_architecture",
    description := "見出し階層に問題があります", severity := "medium", passed := false,
    score_impact := -4,
    recommendation := "見出しの階層構造を正しく設定してください（H1→H2→H3の順序）" }

def ia_004 : AnalysisRule :=
  { rule_id := "ia_004", category := "information_architecture",
    description := "パンくずナビゲーションが見つかりません", severity := "low", passed := false,
    score_impact := -2,
    recommendation := "ユーザーの現在位置を示すパンくずナビゲーションを追加してください" }

def ia_005 : AnalysisRule :=
  { rule_id := "ia_005", category := "information_architecture",
    description := "重複するリンクテキストが多すぎます", severity := "medium", passed := false,
    score_impact := -3,
    recommendation := "同じテキストのリンクを整理し、区別しやすくしてください" }

def cta_001 : AnalysisRule :=
  { rule_id := "cta_001", category := "cta_visibility",
    description := "Above the Fold領域にCTAが見つかりません", severity := "high", passed := false,
    score_impact := -8,
    recommendation := "ページの上部（スクロールしない領域）に主要なCTAを配置してください" }

def cta_002 : AnalysisRule :=
  { rule_id := "cta_002", category := "cta_visibility",
    description := "明確なボタンテキストが検出されませんでした", severity := "medium", passed := false,
    score_impact := -5,
    recommendation := "「購入」「申込」「登録」など明確なアクションを示すボタンを設置してください" }

def cta_003 : AnalysisRule :=
  { rule_id := "cta_003", category := "cta_visibility",
    description := "全体的なコントラストが不十分です", severity := "medium", passed := false,
    score_impact := -4,
    recommendation := "ボタンや重要な要素のコントラスト比を改善してください" }

def cta_004 : AnalysisRule :=
  { rule_id := "cta_004", category := "cta_visibility",
    description := "視覚的に識別可能なボタンが少ないです", severity := "low", passed := false,
    score_impact := -3,
    recommendation := "ボタンをより視覚的に目立つデザインにしてください" }

def read_001 : AnalysisRule :=
  { rule_id := "read_001", category := "readability",
    description := "ページタイトルが設定されていません", severity := "high", passed := false,
    score_impact := -5,
    recommendation := "適切なページタイトルを設定してください" }

def read_002 : AnalysisRule :=
  { rule_id := "read_002", category := "readability",
    description := "ページタイトルが長すぎます", severity := "low", passed := false,
    score_impact := -2,
    recommendation := "ページタイトルを60文字以内に収めてください" }

def read_003 : AnalysisRule :=
  { rule_id := "read_003", category := "readability",
    description := "メタディスクリプションが設定されていません", severity := "medium", passed := false,
    score_impact := -3,
    recommendation := "検索結果に表示されるメタディスクリプションを設定してください" }

def read_004 : AnalysisRule :=
  { rule_id := "read_004", category := "readability",
    description := "段落が長すぎます", severity := "low", passed := false,
    score_impact := -2,
    recommendation := "段落をより短く、読みやすい長さに分割してください" }

def read_005 : AnalysisRule :=
  { rule_id := "read_005", category := "readability",
    description := "ページの視覚的密度が高すぎます", severity := "medium", passed := false,
    score_impact := -4,
    recommendation := "要素間の余白を増やし、視覚的に整理してください" }

def read_006 : AnalysisRule :=
  { rule_id := "read_006", category := "readability",
    description := "余白が不足しています", severity := "medium", passed := false,
    score_impact := -4,
    recommendation := "要素間により多くの余白を設けて、読みやすくしてください" }

/-- form_001's description interpolates the unlabeled count (an f-string). -/
def form_001 (unlabeled_count : Int) : AnalysisRule :=
  { rule_id := "form_001", category := "form_ux",
    description := toString unlabeled_count ++ "個の入力フィールドにラベルがありません",
    severity := "high", passed := false,
    score_impact := -6,
    recommendation := "すべての入力フィールドに適切なラベルを設定してください" }

def form_002 : AnalysisRule :=
  { rule_id := "form_002", category := "form_ux",
    description := "エラーメッセージ表示の仕組みが見つかりません", severity := "medium", passed := false,
    score_impact := -4,
    recommendation := "入力エラー時に分かりやすいエラーメッセージを表示してください" }

def form_003 : AnalysisRule :=
  { rule_id := "form_003", category := "form_ux",
    description := "必須フィールドが明示されていません", severity := "low", passed := false,
    score_impact := -2,
    recommendation := "必須入力項目を明確に示してください（*印やrequired属性）" }

def form_004 : AnalysisRule :=
  { rule_id := "form_004", category := "form_ux",
    description := "入力フィールドが視覚的に識別しにくい可能性があります", severity := "low", passed := false,
    score_impact := -3,
    recommendation := "入力フィールドの境界線や背景色を明確にしてください" }

def a11y_001 : AnalysisRule :=
  { rule_id := "a11y_001", category := "accessibility",
    description := "画像のalt属性が不足しています", severity := "medium", passed := false,
    score_impact := -4,
    recommendation := "すべての画像に適切なalt属性を設定してください" }

def a11y_002 : AnalysisRule :=
  { rule_id := "a11y_002", category := "accessibility",
    description := "ARIA属性が使用されていません", severity := "low", passed := false,
    score_impact := -2,
    recommendation := "スクリーンリーダー対応のためARIA属性を活用してください" }

def a11y_003 : AnalysisRule :=
  { rule_id := "a11y_003", category := "accessibility",
    description := "ランドマークロールが設定されていません", severity := "low", passed := false,
    score_impact := -2,
    recommendation := "main、navigation、banner等のランドマークロールを設定してください" }

def a11y_004 : AnalysisRule :=
  { rule_id := "a11y_004", category := "accessibility",
    description := "コントラスト比が不十分です", severity := "medium", passed := false,
    score_impact := -4,
    recommendation := "WCAG基準（4.5:1）以上のコントラスト比を確保してください" }

def perf_001 : AnalysisRule :=
  { rule_id := "perf_001", category := "performance",
    description := "構造化データが設定されていません", severity := "low", passed := false,
    score_impact := -1,
    recommendation := "JSON-LD形式で構造化データを追加してください" }

def perf_002 : AnalysisRule :=
  { rule_id := "perf_002", category := "performance",
    description := "画像数が多く、読み込み速度に影響する可能性があります", severity := "low", passed := false,
    score_impact := -2,
    recommendation := "画像の最適化（圧縮・WebP形式）を検討してください" }

def perf_003 : AnalysisRule :=
  { rule_id := "perf_003", category := "performance",
    description := "OGP画像が設定されていません", severity := "low", passed := false,
    score_impact := -1,
    recommendation := "SNSでのシェア用にOGP画像を設定してください" }

/-!
Each `_analyze_*` method follows one pattern: start the score at the
category maximum, walk a fixed sequence of checks, and for each check that
fails append its rule and add its (negative) score_impact; finally clamp
the score with `max(score, 0)`.  We render each method as that fixed
sequence of (condition, rule) pairs folded by `applyRule`.
-/

/-- One `if cond: rules.append(rule); score += rule.score_impact` step. -/
def applyRule (acc : List AnalysisRule × Int) (entry : Bool × AnalysisRule) :
    List AnalysisRule × Int :=
  if entry.1 then (acc.1 ++ [entry.2], acc.2 + entry.2.score_impact) else acc

/-- The common tail of every evaluator: fold the checks, clamp at 0. -/
def runCategory (max_score : Int) (table : List (Bool × AnalysisRule)) : CategoryResult :=
  let res := table.foldl applyRule ([], max_score)
  { score := max res.2 0, rules := res.1, max_score := max_score }

/-- _analyze_information_architecture's checks, in source order. -/
def iaTable (html_analysis : HtmlFeatures) : List (Bool × AnalysisRule) :=
  let heading := html_analysis.heading_analysis
  let nav := html_analysis.navigation_analysis
  [ (!heading.has_h1, ia_001),
    (heading.multiple_h1, ia_002),
    (!heading.hierarchy_issues.isEmpty, ia_003),
    (!nav.has_breadcrumbs, ia_004),
    (decide (nav.duplicate_link_texts > 5), ia_005) ]

def analyze_information_architecture (html_analysis : HtmlFeatures)
    (image_analysis : ImageFeatures) : CategoryResult :=
  runCategory (max_scores "information_architecture") (iaTable html_analysis)

/-- _analyze_cta_visibility's checks, in source order. -/
def ctaTable (image_analysis : ImageFeatures) : List (Bool × AnalysisRule) :=
  [ (!image_analysis.above_fold_analysis.has_cta_above_fold, cta_001),
    (decide (image_analysis.ocr_analysis.button_texts.length = 0), cta_002),
    (!image_analysis.contrast_analysis.has_good_contrast, cta_003),
    (decide (image_analysis.element_detection.button_candidates < 2), cta_004) ]

def analyze_cta_visibility (html_analysis : HtmlFeatures)
    (image_analysis : ImageFeatures) : CategoryResult :=
  runCategory (max_scores "cta_visibility") (ctaTable image_analysis)

/-- _analyze_readability's checks; read_002 sits on the elif branch of
read_001, so its condition carries the negation of read_001's. -/
def readTable (html_analysis : HtmlFeatures) (image_analysis : ImageFeatures) :
    List (Bool × AnalysisRule) :=
  let meta := html_analysis.meta_analysis
  let density := image_analysis.visual_density
  [ (decide (meta.title_length = 0), read_001),
    (decide (¬ meta.title_length = 0 ∧ meta.title_length > 60), read_002),
    (decide (meta.description_length = 0), read_003),
    (decide (html_analysis.content_analysis.avg_paragraph_length > 200), read_004),
    (density.is_cluttered, read_005),
    (!density.has_sufficient_whitespace, read_006) ]

def analyze_readability (html_analysis : HtmlFeatures)
    (image_analysis : ImageFeatures) : CategoryResult :=
  runCategory (max_scores "readability") (readTable html_analysis image_analysis)

/-- _analyze_form_ux's checks: the whole block is guarded by form_count > 0;
when the guard fails no check runs and the category keeps its maximum. -/
def formTable (html_analysis : HtmlFeatures) (image_analysis : ImageFeatures) :
    List (Bool × AnalysisRule) :=
  let fa := html_analysis.form_analysis
  if fa.form_count > 0 then
    [ (decide (fa.unlabeled_count > 0), form_001 fa.unlabeled_count),
      (!fa.has_error_handling, form_002),
      (decide (fa.required_fields = 0 ∧ fa.input_count > 2), form_003),
      (decide ((image_analysis.element_detection.input_candidates : Rat) <
        (fa.input_count : Rat) * mkRat 1 2), form_004) ]
  else []

def analyze_form_ux (html_analysis : HtmlFeatures)
    (image_analysis : ImageFeatures) : CategoryResult :=
  runCategory (max_scores "form_ux") (formTable html_analysis image_analysis)

/-- _analyze_accessibility's checks, in source order; mkRat 4 5 is the
source's float literal 0.8. -/
def a11yTable (html_analysis : HtmlFeatures) (image_analysis : ImageFeatures) :
    List (Bool × AnalysisRule) :=
  let acc := html_analysis.accessibility_analysis
  [ (decide (acc.alt_text_coverage < mkRat 4 5), a11y_001),
    (decide (acc.aria_elements_count = 0), a11y_002),
    (decide (acc.landmark_roles_count = 0), a11y_003),
    (image_analysis.contrast_analysis.is_low_contrast, a11y_004) ]

def analyze_accessibility (html_analysis : HtmlFeatures)
    (image_analysis : ImageFeatures) : CategoryResult :=
  runCategory (max_scores "accessibility") (a11yTable html_analysis image_analysis)

/-- _analyze_performance's checks, in source order. -/
def perfTable (html_analysis : HtmlFeatures) : List (Bool × AnalysisRule) :=
  let meta := html_analysis.meta_analysis
  [ (decide (meta.structured_data_count = 0), perf_001),
    (decide (html_analysis.accessibility_analysis.total_images > 10), perf_002),
    (!meta.has_og_image, perf_003) ]

def analyze_performance (html_analysis : HtmlFeatures)
    (image_analysis : ImageFeatures) : CategoryResult :=
  runCategory (max_scores "performance") (perfTable html_analysis)

/-- severity_order.get(x.severity, 0). -/
def severity_order (severity : String) : Nat :=
  if severity = "high" then 3
  else if severity = "medium" then 2
  else if severity = "low" then 1
  else 0

/-- The "a sorts no later than b" relation of the stable descending sort
`failed_rules.sort(key=lambda x: severity_order.get(x.severity, 0), reverse=True)`. -/
def severityGE (a b : AnalysisRule) : Prop :=
  severity_order b.severity ≤ severity_order a.severity

instance : DecidableRel severityGE := fun a b =>
  Nat.decLe (severity_order b.severity) (severity_order a.severity)

instance : IsTotal AnalysisRule severityGE :=
  ⟨fun a b => Nat.le_total (severity_order b.severity) (severity_order a.severity)⟩

instance : IsTrans AnalysisRule severityGE :=
  ⟨fun _ _ _ hab hbc => le_trans hbc hab⟩

/-- The fixed generic backfill pool of _generate_recommendations. -/
def generic_recommendations : List String :=
  [ "ページ全体のコントラスト比を向上させてください",
    "重要な情報をページ上部に配置してください",
    "ナビゲーションをより直感的にしてください" ]

/-- One iteration of the backfill loop: stop appending at 10 entries and
skip a generic recommendation already present. -/
def backfillStep (acc : List String) (rec : String) : List String :=
  if 10 ≤ acc.length then acc
  else if rec ∈ acc then acc
  else acc ++ [rec]

/-- _generate_recommendations: keep failed rules, stable-sort them by
severity descending, take the first 10 recommendation texts, and when fewer
than 3 were produced run the generic backfill loop. -/
def generate_recommendations (rules : List AnalysisRule) : List String :=
  let failed_rules := rules.filter (fun r => !r.passed)
  let sorted_rules := List.insertionSort severityGE failed_rules
  let recommendations := (sorted_rules.take 10).map (fun r => r.recommendation)
  if recommendations.length < 3 then
    generic_recommendations.foldl backfillStep recommendations
  else
    recommendations

/-- The category_details mapping of the result dict. -/
structure CategoryDetails where
  information_architecture : CategoryResult
  cta_visibility : CategoryResult
  readability : CategoryResult
  form_ux : CategoryResult
  accessibility : CategoryResult
  performance : CategoryResult
deriving DecidableEq

/-- The dict returned by HeuristicAnalyzer.analyze. -/
structure AnalyzeResult where
  scores : HeuristicScore
  rules : List AnalysisRule
  recommendations : List String
  total_score : Int
  category_details : CategoryDetails
deriving DecidableEq

/-- HeuristicAnalyzer.analyze (the url argument is received but never read). -/
def analyze (html_analysis : HtmlFeatures) (image_analysis : ImageFeatures)
    (url : String) : AnalyzeResult :=
  let info_arch_result := analyze_information_architecture html_analysis image_analysis
  let cta_result := analyze_cta_visibility html_analysis image_analysis
  let readability_result := analyze_readability html_analysis image_analysis
  let form_result := analyze_form_ux html_analysis image_analysis
  let accessibility_result := analyze_accessibility html_analysis image_analysis
  let performance_result := analyze_performance html_analysis image_analysis
  let scores : HeuristicScore :=
    { information_architecture := info_arch_result.score,
      cta_visibility := cta_result.score,
      readability := readability_result.score,
      form_ux := form_result.score,
      accessibility := accessibility_result.score,
      performance := performance_result.score }
  let all_rules := info_arch_result.rules ++ cta_result.rules ++
    readability_result.rules ++ form_result.rules ++
    accessibility_result.rules ++ performance_result.rules
  let recommendations := generate_recommendations all_rules
  { scores := scores,
    rules := all_rules,
    recommendations := recommendations,
    total_score := scores.total_score,
    category_details :=
      { information_architecture := info_arch_result,
        cta_visibility := cta_result,
        readability := readability_result,
        form_ux := form_result,
        accessibility := accessibility_result,
        performance := performance_result } }

/-- The concatenation, in the fixed category order, of the six categories'
fired-rule lists (analyze's all_rules). -/
def allRules (html_analysis : HtmlFeatures) (image_analysis : ImageFeatures) :
    List AnalysisRule :=
  (analyze_information_architecture html_analysis image_analysis).rules ++
  (analyze_cta_visibility html_analysis image_analysis).rules ++
  (analyze_readability html_analysis image_analysis).rules ++
  (analyze_form_ux html_analysis image_analysis).rules ++
  (analyze_accessibility html_analysis image_analysis).rules ++
  (analyze_performance html_analysis image_analysis).rules

/-!  The summary classifier of analysis_service.get_analysis_summary. -/

/-- One entry of the category_scores list built by get_analysis_summary. -/
structure CategoryScoreEntry where
  category : String
  score : Int
  max_score : Int
  percentage : Rat
deriving DecidableEq

/-- One iteration of the category_scores loop: percentage = score / max * 100. -/
def mkCategoryScore (category : String) (score : Int) : CategoryScoreEntry :=
  let m := max_scores category
  { category := category, score := score, max_score := m,
    percentage := (score : Rat) / (m : Rat) * 100 }

/-- The category_scores list, in the fixed dict insertion order. -/
def category_scores (categories : HeuristicScore) : List CategoryScoreEntry :=
  [ mkCategoryScore "information_architecture" categories.information_architecture,
    mkCategoryScore "cta_visibility" categories.cta_visibility,
    mkCategoryScore "readability" categories.readability,
    mkCategoryScore "form_ux" categories.form_ux,
    mkCategoryScore "accessibility" categories.accessibility,
    mkCategoryScore "performance" categories.performance ]

/-- The "a sorts no later than b" relation of
`category_scores.sort(key=lambda x: x["percentage"], reverse=True)`. -/
def percentageGE (a b : CategoryScoreEntry) : Prop :=
  b.percentage ≤ a.percentage

instance : DecidableRel percentageGE := fun a b =>
  inferInstanceAs (Decidable (b.percentage ≤ a.percentage))

instance : IsTotal CategoryScoreEntry percentageGE :=
  ⟨fun a b => le_total b.percentage a.percentage⟩

instance : IsTrans CategoryScoreEntry percentageGE :=
  ⟨fun _ _ _ hab hbc => le_trans hbc hab⟩

/-- The category_scores list after the stable descending sort by percentage. -/
def sorted_category_scores (categories : HeuristicScore) : List CategoryScoreEntry :=
  List.insertionSort percentageGE (category_scores categories)

/-- strengths: the sub-list of the sorted list with percentage >= 70, first 3. -/
def summary_strengths (categories : HeuristicScore) : List CategoryScoreEntry :=
  ((sorted_category_scores categories).filter (fun e => decide (70 ≤ e.percentage))).take 3

/-- weaknesses: the sub-list of the sorted list with percentage < 50, first 3. -/
def summary_weaknesses (categories : HeuristicScore) : List CategoryScoreEntry :=
  ((sorted_category_scores categories).filter (fun e => decide (e.percentage < 50))).take 3

/-!  Generic lemmas about the evaluation fold. -/

/-- The rules a table fires: the second components of its true entries. -/
def fired_rules (table : List (Bool × AnalysisRule)) : List AnalysisRule :=
  (table.filter (fun e => e.1)).map (fun e => e.2)

theorem foldl_applyRule (table : List (Bool × AnalysisRule)) (rs : List AnalysisRule) (s : Int) :
    table.foldl applyRule (rs, s) =
      (rs ++ fired_rules table,
        s + ((fired_rules table).map (fun r => r.score_impact)).sum) := by
  induction table generalizing rs s with
  | nil => simp [fired_rules]
  | cons e t ih =>
    obtain ⟨fire, r⟩ := e
    cases fire with
    | false => simpa [applyRule, fired_rules] using ih rs s
    | true =>
      rw [List.foldl_cons]
      have happ : applyRule (rs, s) (true, r) = (rs ++ [r], s + r.score_impact) := rfl
      rw [happ, ih]
      simp [fired_rules, add_assoc]

theorem runCategory_rules (m : Int) (t : List (Bool × AnalysisRule)) :
    (runCategory m t).rules = fired_rules t := by
  simp [runCategory, foldl_applyRule]

theorem runCategory_score (m : Int) (t : List (Bool × AnalysisRule)) :
    (runCategory m t).score =
      max (m + ((fired_rules t).map (fun r => r.score_impact)).sum) 0 := by
  simp [runCategory, foldl_applyRule]

theorem sum_nonpos_int {l : List Int} (h : ∀ x ∈ l, x ≤ 0) : l.sum ≤ 0 := by
  induction l with
  | nil => simp
  | cons x xs ih =>
    rw [List.sum_cons]
    have h1 := h x (by simp)
    have h2 := ih (fun y hy => h y (by simp [hy]))
    omega

theorem runCategory_score_nonneg (m : Int) (t : List (Bool × AnalysisRule)) :
    0 ≤ (runCategory m t).score := by
  rw [runCategory_score]; exact le_max_right _ _

theorem fired_sublist (t : List (Bool × AnalysisRule)) :
    List.Sublist (fired_rules t) (t.map (fun e => e.2)) := by
  unfold fired_rules
  exact (List.filter_sublist t).map _

theorem runCategory_score_le (m : Int) (t : List (Bool × AnalysisRule)) (hm : 0 ≤ m)
    (h : ∀ r ∈ t.map (fun e => e.2), r.score_impact ≤ 0) : (runCategory m t).score ≤ m := by
  rw [runCategory_score]
  have hsum : ((fired_rules t).map (fun r => r.score_impact)).sum ≤ 0 := by
    apply sum_nonpos_int
    intro x hx
    obtain ⟨r, hr, rfl⟩ := List.mem_map.mp hx
    exact h r ((fired_sublist t).subset hr)
  exact max_le (by omega) hm

/-!  The second components of each table are fixed rule constants. -/

theorem iaTable_map_snd (h : HtmlFeatures) :
    (iaTable h).map (fun e => e.2) = [ia_001, ia_002, ia_003, ia_004, ia_005] := rfl

theorem ctaTable_map_snd (img : ImageFeatures) :
    (ctaTable img).map (fun e => e.2) = [cta_001, cta_002, cta_003, cta_004] := rfl

theorem readTable_map_snd (h : HtmlFeatures) (img : ImageFeatures) :
    (readTable h img).map (fun e => e.2) =
      [read_001, read_002, read_003, read_004, read_005, read_006] := rfl

theorem formTable_map_snd (h : HtmlFeatures) (img : ImageFeatures) :
    (formTable h img).map (fun e => e.2) =
      if h.form_analysis.form_count > 0 then
        [form_001 h.form_analysis.unlabeled_count, form_002, form_003, form_004]
      else [] := by
  by_cases hc : h.form_analysis.form_count > 0 <;> simp [formTable, hc]

theorem a11yTable_map_snd (h : HtmlFeatures) (img : ImageFeatures) :
    (a11yTable h img).map (fun e => e.2) = [a11y_001, a11y_002, a11y_003, a11y_004] := rfl

theorem perfTable_map_snd (h : HtmlFeatures) :
    (perfTable h).map (fun e => e.2) = [perf_001, perf_002, perf_003] := rfl

/-!  Every rule a table can fire has nonpositive impact and passed = false,
and its recommendation text belongs to the fixed catalog of texts. -/

def ia_texts : List String :=
  [ia_001.recommendation, ia_002.recommendation, ia_003.recommendation,
    ia_004.recommendation, ia_005.recommendation]

def cta_texts : List String :=
  [cta_001.recommendation, cta_002.recommendation, cta_003.recommendation,
    cta_004.recommendation]

def read_texts : List String :=
  [read_001.recommendation, read_002.recommendation, read_003.recommendation,
    read_004.recommendation, read_005.recommendation, read_006.recommendation]

def form_texts : List String :=
  [(form_001 0).recommendation, form_002.recommendation, form_003.recommendation,
    form_004.recommendation]

def a11y_texts : List String :=
  [a11y_001.recommendation, a11y_002.recommendation, a11y_003.recommendation,
    a11y_004.recommendation]

def perf_texts : List String :=
  [perf_001.recommendation, perf_002.recommendation, perf_003.recommendation]

/-- All 26 recommendation texts of the rule catalog, in declaration order. -/
def catalog_texts : List String :=
  ia_texts ++ cta_texts ++ read_texts ++ form_texts ++ a11y_texts ++ perf_texts

theorem catalog_texts_nodup : catalog_texts.Nodup := by decide

theorem generic_not_in_catalog :
    ∀ g ∈ generic_recommendations, g ∉ catalog_texts := by decide

theorem generic_nodup : generic_recommendations.Nodup := by decide

/-!  Facts about allRules: every fired rule has passed = false, a
nonpositive impact, and a recommendation text from the catalog; the
recommendation texts of allRules form a sublist of the catalog (hence
are pairwise distinct). -/

theorem analyze_ia_rules (h : HtmlFeatures) (img : ImageFeatures) :
    (analyze_information_architecture h img).rules = fired_rules (iaTable h) :=
  runCategory_rules _ _

theorem analyze_cta_rules (h : HtmlFeatures) (img : ImageFeatures) :
    (analyze_cta_visibility h img).rules = fired_rules (ctaTable img) :=
  runCategory_rules _ _

theorem analyze_read_rules (h : HtmlFeatures) (img : ImageFeatures) :
    (analyze_readability h img).rules = fired_rules (readTable h img) :=
  runCategory_rules _ _

theorem analyze_form_rules (h : HtmlFeatures) (img : ImageFeatures) :
    (analyze_form_ux h img).rules = fired_rules (formTable h img) :=
  runCategory_rules _ _

theorem analyze_a11y_rules (h : HtmlFeatures) (img : ImageFeatures) :
    (analyze_accessibility h img).rules = fired_rules (a11yTable h img) :=
  runCategory_rules _ _

theorem analyze_perf_rules (h : HtmlFeatures) (img : ImageFeatures) :
    (analyze_performance h img).rules = fired_rules (perfTable h) :=
  runCategory_rules _ _

theorem mem_allRules (h : HtmlFeatures) (img : ImageFeatures) {r : AnalysisRule}
    (hr : r ∈ allRules h img) :
    r ∈ (iaTable h).map (fun e => e.2) ∨ r ∈ (ctaTable img).map (fun e => e.2) ∨
    r ∈ (readTable h img).map (fun e => e.2) ∨ r ∈ (formTable h img).map (fun e => e.2) ∨
    r ∈ (a11yTable h img).map (fun e => e.2) ∨ r ∈ (perfTable h).map (fun e => e.2) := by
  rw [allRules, analyze_ia_rules, analyze_cta_rules, analyze_read_rules,
    analyze_form_rules, analyze_a11y_rules, analyze_perf_rules] at hr
  simp only [List.mem_append, or_assoc] at hr
  rcases hr with hr | hr | hr | hr | hr | hr
  · exact Or.inl ((fired_sublist _).subset hr)
  · exact Or.inr (Or.inl ((fired_sublist _).subset hr))
  · exact Or.inr (Or.inr (Or.inl ((fired_sublist _).subset hr)))
  · exact Or.inr (Or.inr (Or.inr (Or.inl ((fired_sublist _).subset hr))))
  · exact Or.inr (Or.inr (Or.inr (Or.inr (Or.inl ((fired_sublist _).subset hr)))))
  · exact Or.inr (Or.inr (Or.inr (Or.inr (Or.inr ((fired_sublist _).subset hr)))))

theorem allRules_ok (h : HtmlFeatures) (img : ImageFeatures) :
    ∀ r ∈ allRules h img,
      r.passed = false ∧ r.score_impact ≤ 0 ∧ r.recommendation ∈ catalog_texts := by
  intro r hr
  rcases mem_allRules h img hr with h1 | h1 | h1 | h1 | h1 | h1
  · rw [iaTable_map_snd] at h1; fin_cases h1 <;> refine ⟨rfl, by decide, by decide⟩
  · rw [ctaTable_map_snd] at h1; fin_cases h1 <;> refine ⟨rfl, by decide, by decide⟩
  · rw [readTable_map_snd] at h1; fin_cases h1 <;> refine ⟨rfl, by decide, by decide⟩
  · rw [formTable_map_snd] at h1
    by_cases hc : h.form_analysis.form_count > 0
    · rw [if_pos hc] at h1
      fin_cases h1
      · exact ⟨rfl, show (-6 : Int) ≤ 0 by decide,
          show (form_001 0).recommendation ∈ catalog_texts by decide⟩
      · exact ⟨rfl, by decide, by decide⟩
      · exact ⟨rfl, by decide, by decide⟩
      · exact ⟨rfl, by decide, by decide⟩
    · rw [if_neg hc] at h1; exact absurd h1 (List.not_mem_nil r)
  · rw [a11yTable_map_snd] at h1; fin_cases h1 <;> refine ⟨rfl, by decide, by decide⟩
  · rw [perfTable_map_snd] at h1; fin_cases h1 <;> refine ⟨rfl, by decide, by decide⟩

theorem rules_texts_sublist_ia (h : HtmlFeatures) (img : ImageFeatures) :
    List.Sublist (((analyze_information_architecture h img).rules).map
      (fun r => r.recommendation)) ia_texts := by
  rw [analyze_ia_rules]
  exact (fired_sublist (iaTable h)).map (fun r => r.recommendation)

theorem rules_texts_sublist_cta (h : HtmlFeatures) (img : ImageFeatures) :
    List.Sublist (((analyze_cta_visibility h img).rules).map
      (fun r => r.recommendation)) cta_texts := by
  rw [analyze_cta_rules]
  exact (fired_sublist (ctaTable img)).map (fun r => r.recommendation)

theorem rules_texts_sublist_read (h : HtmlFeatures) (img : ImageFeatures) :
    List.Sublist (((analyze_readability h img).rules).map
      (fun r => r.recommendation)) read_texts := by
  rw [analyze_read_rules]
  exact (fired_sublist (readTable h img)).map (fun r => r.recommendation)

theorem rules_texts_sublist_form (h : HtmlFeatures) (img : ImageFeatures) :
    List.Sublist (((analyze_form_ux h img).rules).map
      (fun r => r.recommendation)) form_texts := by
  rw [analyze_form_rules]
  refine List.Sublist.trans ((fired_sublist (formTable h img)).map (fun r => r.recommendation)) ?_
  rw [formTable_map_snd]
  by_cases hc : h.form_analysis.form_count > 0
  · rw [if_pos hc]
    exact List.Sublist.refl _
  · rw [if_neg hc]
    exact List.nil_sublist _

theorem rules_texts_sublist_a11y (h : HtmlFeatures) (img : ImageFeatures) :
    List.Sublist (((analyze_accessibility h img).rules).map
      (fun r => r.recommendation)) a11y_texts := by
  rw [analyze_a11y_rules]
  exact (fired_sublist (a11yTable h img)).map (fun r => r.recommendation)

theorem rules_texts_sublist_perf (h : HtmlFeatures) (img : ImageFeatures) :
    List.Sublist (((analyze_performance h img).rules).map
      (fun r => r.recommendation)) perf_texts := by
  rw [analyze_perf_rules]
  exact (fired_sublist (perfTable h)).map (fun r => r.recommendation)

theorem allRules_texts_sublist (h : HtmlFeatures) (img : ImageFeatures) :
    List.Sublist ((allRules h img).map (fun r => r.recommendation)) catalog_texts := by
  rw [allRules, catalog_texts]
  simp only [List.map_append, List.append_assoc]
  exact (rules_texts_sublist_ia h img).append ((rules_texts_sublist_cta h img).append
    ((rules_texts_sublist_read h img).append ((rules_texts_sublist_form h img).append
      ((rules_texts_sublist_a11y h img).append (rules_texts_sublist_perf h img)))))

theorem allRules_texts_nodup (h : HtmlFeatures) (img : ImageFeatures) :
    ((allRules h img).map (fun r => r.recommendation)).Nodup :=
  catalog_texts_nodup.sublist (allRules_texts_sublist h img)

/-!  Lemmas about the generic backfill loop. -/

theorem backfillStep_append (acc : List String) (x : String)
    (hlen : acc.length < 10) (hx : x ∉ acc) : backfillStep acc x = acc ++ [x] := by
  rw [backfillStep, if_neg (by omega), if_neg hx]

theorem backfill_append (l : List String) (acc : List String) :
    ∃ t, l.foldl backfillStep acc = acc ++ t := by
  induction l generalizing acc with
  | nil => exact ⟨[], by simp⟩
  | cons x xs ih =>
    rw [List.foldl_cons, backfillStep]
    by_cases h10 : 10 ≤ acc.length
    · rw [if_pos h10]; exact ih acc
    · rw [if_neg h10]
      by_cases hx : x ∈ acc
      · rw [if_pos hx]; exact ih acc
      · rw [if_neg hx]
        obtain ⟨t, ht⟩ := ih (acc ++ [x])
        exact ⟨[x] ++ t, by rw [ht, List.append_assoc]⟩

theorem backfill_length_le (l : List String) (acc : List String)
    (h : acc.length ≤ 10) : (l.foldl backfillStep acc).length ≤ 10 := by
  induction l generalizing acc with
  | nil => simpa using h
  | cons x xs ih =>
    rw [List.foldl_cons, backfillStep]
    by_cases h10 : 10 ≤ acc.length
    · rw [if_pos h10]; exact ih acc h
    · rw [if_neg h10]
      by_cases hx : x ∈ acc
      · rw [if_pos hx]; exact ih acc h
      · rw [if_neg hx]
        exact ih (acc ++ [x]) (by simp; omega)

theorem backfill_nodup (l : List String) (acc : List String)
    (h : acc.Nodup) : (l.foldl backfillStep acc).Nodup := by
  induction l generalizing acc with
  | nil => simpa using h
  | cons x xs ih =>
    rw [List.foldl_cons, backfillStep]
    by_cases h10 : 10 ≤ acc.length
    · rw [if_pos h10]; exact ih acc h
    · rw [if_neg h10]
      by_cases hx : x ∈ acc
      · rw [if_pos hx]; exact ih acc h
      · rw [if_neg hx]
        refine ih (acc ++ [x]) ?_
        simp [List.nodup_append, h, hx]

theorem foldl_backfill_three (a b c : String) (acc : List String)
    (hlen : acc.length < 3)
    (ha : a ∉ acc) (hb : b ∉ acc) (hc : c ∉ acc)
    (hba : b ≠ a) (hca : c ≠ a) (hcb : c ≠ b) :
    [a, b, c].foldl backfillStep acc = acc ++ [a, b, c] := by
  have s1 : backfillStep acc a = acc ++ [a] :=
    backfillStep_append acc a (by omega) ha
  have s2 : backfillStep (acc ++ [a]) b = acc ++ [a] ++ [b] := by
    refine backfillStep_append _ b (by simp; omega) ?_
    simp [List.mem_append, hb, hba]
  have s3 : backfillStep (acc ++ [a] ++ [b]) c = acc ++ [a] ++ [b] ++ [c] := by
    refine backfillStep_append _ c (by simp; omega) ?_
    simp [List.mem_append, hc, hca, hcb]
  rw [List.foldl_cons, s1, List.foldl_cons, s2, List.foldl_cons, s3, List.foldl_nil]
  simp

/-!  Stability of the severity sort: for every severity key, the sub-list of
rules holding that key is unchanged by the sort, so same-severity rules keep
their collection order (category order, then declaration order). -/

theorem filter_orderedInsert_sev (k : Nat) (a : AnalysisRule) (l : List AnalysisRule) :
    (List.orderedInsert severityGE a l).filter
        (fun r => decide (severity_order r.severity = k)) =
      ((a :: l).filter (fun r => decide (severity_order r.severity = k))) := by
  induction l with
  | nil => rfl
  | cons b bl ih =>
    rw [List.orderedInsert]
    by_cases hab : severityGE a b
    · rw [if_pos hab]
    · rw [if_neg hab]
      have hlt : severity_order a.severity < severity_order b.severity := by
        rw [severityGE] at hab; omega
      by_cases hbk : severity_order b.severity = k
      · have hak : ¬ severity_order a.severity = k := by omega
        simp only [List.filter_cons, ih]
        simp [hak, hbk]
      · simp only [List.filter_cons, ih]
        simp [List.filter_cons, hbk]

theorem filter_insertionSort_sev (k : Nat) (l : List AnalysisRule) :
    (List.insertionSort severityGE l).filter
        (fun r => decide (severity_order r.severity = k)) =
      l.filter (fun r => decide (severity_order r.severity = k)) := by
  induction l with
  | nil => rfl
  | cons a l ih =>
    rw [List.insertionSort, filter_orderedInsert_sev, List.filter_cons, List.filter_cons, ih]

/-!  A characterization of _generate_recommendations on rule lists whose
members all carry passed = false (which every fired rule does). -/

theorem generate_recommendations_of_failed (rules : List AnalysisRule)
    (hp : ∀ r ∈ rules, r.passed = false) :
    generate_recommendations rules =
      if (((List.insertionSort severityGE rules).take 10).map
            (fun r => r.recommendation)).length < 3
      then generic_recommendations.foldl backfillStep
        (((List.insertionSort severityGE rules).take 10).map (fun r => r.recommendation))
      else ((List.insertionSort severityGE rules).take 10).map (fun r => r.recommendation) := by
  have hf : rules.filter (fun r => !r.passed) = rules :=
    List.filter_eq_self.mpr (fun r hr => by simp [hp r hr])
  have h0 : generate_recommendations rules =
      if (((List.insertionSort severityGE (rules.filter (fun r => !r.passed))).take 10).map
            (fun r => r.recommendation)).length < 3
      then generic_recommendations.foldl backfillStep
        (((List.insertionSort severityGE (rules.filter (fun r => !r.passed))).take 10).map
          (fun r => r.recommendation))
      else ((List.insertionSort severityGE (rules.filter (fun r => !r.passed))).take 10).map
        (fun r => r.recommendation) := rfl
  rw [h0, hf]

set_option maxHeartbeats 1000000 in
theorem analyze_recommendations (h : HtmlFeatures) (img : ImageFeatures) (u : String) :
    (analyze h img u).recommendations = generate_recommendations (allRules h img) := rfl

/-!  Per-category score bounds. -/

theorem iaTable_impacts (h : HtmlFeatures) :
    ∀ r ∈ (iaTable h).map (fun e => e.2), r.score_impact ≤ 0 := by
  rw [iaTable_map_snd]; intro r hr; fin_cases hr <;> decide

theorem ctaTable_impacts (img : ImageFeatures) :
    ∀ r ∈ (ctaTable img).map (fun e => e.2), r.score_impact ≤ 0 := by
  rw [ctaTable_map_snd]; intro r hr; fin_cases hr <;> decide

theorem readTable_impacts (h : HtmlFeatures) (img : ImageFeatures) :
    ∀ r ∈ (readTable h img).map (fun e => e.2), r.score_impact ≤ 0 := by
  rw [readTable_map_snd]; intro r hr; fin_cases hr <;> decide

theorem formTable_impacts (h : HtmlFeatures) (img : ImageFeatures) :
    ∀ r ∈ (formTable h img).map (fun e => e.2), r.score_impact ≤ 0 := by
  rw [formTable_map_snd]
  by_cases hc : h.form_analysis.form_count > 0
  · rw [if_pos hc]
    intro r hr
    fin_cases hr
    · exact show (-6 : Int) ≤ 0 by decide
    · decide
    · decide
    · decide
  · rw [if_neg hc]
    intro r hr
    exact absurd hr (List.not_mem_nil r)

theorem a11yTable_impacts (h : HtmlFeatures) (img : ImageFeatures) :
    ∀ r ∈ (a11yTable h img).map (fun e => e.2), r.score_impact ≤ 0 := by
  rw [a11yTable_map_snd]; intro r hr; fin_cases hr <;> decide

theorem perfTable_impacts (h : HtmlFeatures) :
    ∀ r ∈ (perfTable h).map (fun e => e.2), r.score_impact ≤ 0 := by
  rw [perfTable_map_snd]; intro r hr; fin_cases hr <;> decide

theorem ia_score_bounds (h : HtmlFeatures) (img : ImageFeatures) :
    0 ≤ (analyze_information_architecture h img).score ∧
      (analyze_information_architecture h img).score ≤ 30 :=
  ⟨runCategory_score_nonneg _ _,
    le_trans (runCategory_score_le _ _ (by decide) (iaTable_impacts h)) (by decide)⟩

theorem cta_score_bounds (h : HtmlFeatures) (img : ImageFeatures) :
    0 ≤ (analyze_cta_visibility h img).score ∧ (analyze_cta_visibility h img).score ≤ 20 :=
  ⟨runCategory_score_nonneg _ _,
    le_trans (runCategory_score_le _ _ (by decide) (ctaTable_impacts img)) (by decide)⟩

theorem read_score_bounds (h : HtmlFeatures) (img : ImageFeatures) :
    0 ≤ (analyze_readability h img).score ∧ (analyze_readability h img).score ≤ 20 :=
  ⟨runCategory_score_nonneg _ _,
    le_trans (runCategory_score_le _ _ (by decide) (readTable_impacts h img)) (by decide)⟩

theorem form_score_bounds (h : HtmlFeatures) (img : ImageFeatures) :
    0 ≤ (analyze_form_ux h img).score ∧ (analyze_form_ux h img).score ≤ 15 :=
  ⟨runCategory_score_nonneg _ _,
    le_trans (runCategory_score_le _ _ (by decide) (formTable_impacts h img)) (by decide)⟩

theorem a11y_score_bounds (h : HtmlFeatures) (img : ImageFeatures) :
    0 ≤ (analyze_accessibility h img).score ∧ (analyze_accessibility h img).score ≤ 10 :=
  ⟨runCategory_score_nonneg _ _,
    le_trans (runCategory_score_le _ _ (by decide) (a11yTable_impacts h img)) (by decide)⟩

theorem perf_score_bounds (h : HtmlFeatures) (img : ImageFeatures) :
    0 ≤ (analyze_performance h img).score ∧ (analyze_performance h img).score ≤ 5 :=
  ⟨runCategory_score_nonneg _ _,
    le_trans (runCategory_score_le _ _ (by decide) (perfTable_impacts h)) (by decide)⟩

/-- C1: every category score returned by analyze lies in [0, its maximum]
(30, 20, 20, 15, 10, 5), total_score is the plain, unclamped sum of the six
category scores, and hence lies in [0, 100]. -/
theorem scores_within_bounds_total_is_sum (h : HtmlFeatures) (img : ImageFeatures)
    (u : String) :
    (0 ≤ (analyze h img u).scores.information_architecture ∧
      (analyze h img u).scores.information_architecture ≤ 30) ∧
    (0 ≤ (analyze h img u).scores.cta_visibility ∧
      (analyze h img u).scores.cta_visibility ≤ 20) ∧
    (0 ≤ (analyze h img u).scores.readability ∧
      (analyze h img u).scores.readability ≤ 20) ∧
    (0 ≤ (analyze h img u).scores.form_ux ∧
      (analyze h img u).scores.form_ux ≤ 15) ∧
    (0 ≤ (analyze h img u).scores.accessibility ∧
      (analyze h img u).scores.accessibility ≤ 10) ∧
    (0 ≤ (analyze h img u).scores.performance ∧
      (analyze h img u).scores.performance ≤ 5) ∧
    (analyze h img u).total_score =
      (analyze h img u).scores.information_architecture +
        (analyze h img u).scores.cta_visibility +
        (analyze h img u).scores.readability +
        (analyze h img u).scores.form_ux +
        (analyze h img u).scores.accessibility +
        (analyze h img u).scores.performance ∧
    0 ≤ (analyze h img u).total_score ∧ (analyze h img u).total_score ≤ 100 := by
  obtain ⟨b1a, b1b⟩ := ia_score_bounds h img
  obtain ⟨b2a, b2b⟩ := cta_score_bounds h img
  obtain ⟨b3a, b3b⟩ := read_score_bounds h img
  obtain ⟨b4a, b4b⟩ := form_score_bounds h img
  obtain ⟨b5a, b5b⟩ := a11y_score_bounds h img
  obtain ⟨b6a, b6b⟩ := perf_score_bounds h img
  have e1 : (analyze h img u).scores.information_architecture =
      (analyze_information_architecture h img).score := rfl
  have e2 : (analyze h img u).scores.cta_visibility = (analyze_cta_visibility h img).score := rfl
  have e3 : (analyze h img u).scores.readability = (analyze_readability h img).score := rfl
  have e4 : (analyze h img u).scores.form_ux = (analyze_form_ux h img).score := rfl
  have e5 : (analyze h img u).scores.accessibility = (analyze_accessibility h img).score := rfl
  have e6 : (analyze h img u).scores.performance = (analyze_performance h img).score := rfl
  have et : (analyze h img u).total_score =
      (analyze_information_architecture h img).score + (analyze_cta_visibility h img).score +
      (analyze_readability h img).score + (analyze_form_ux h img).score +
      (analyze_accessibility h img).score + (analyze_performance h img).score := rfl
  rw [e1, e2, e3, e4, e5, e6, et]
  refine ⟨⟨b1a, b1b⟩, ⟨b2a, b2b⟩, ⟨b3a, b3b⟩, ⟨b4a, b4b⟩, ⟨b5a, b5b⟩, ⟨b6a, b6b⟩, rfl, ?_, ?_⟩
  · omega
  · omega

/-- C2: when form_analysis.form_count is 0 (the default when the namespace
is absent), the form_ux category result has score 15 and fires no rules. -/
theorem form_ux_full_when_no_forms (h : HtmlFeatures) (img : ImageFeatures) (u : String)
    (hc : h.form_analysis.form_count = 0) :
    (analyze h img u).category_details.form_ux.score = 15 ∧
      (analyze h img u).category_details.form_ux.rules = [] := by
  have hd : (analyze h img u).category_details.form_ux = analyze_form_ux h img := rfl
  have ht : formTable h img = [] := by
    rw [formTable, if_neg (by omega)]
  rw [hd, analyze_form_ux, ht]
  exact ⟨by decide, rfl⟩

/-- Witness for C2 at the all-defaults feature maps, whose form_count is 0. -/
theorem form_ux_full_when_no_forms_witness :
    (analyze {} {} "").category_details.form_ux.score = 15 ∧
      (analyze {} {} "").category_details.form_ux.rules = [] :=
  form_ux_full_when_no_forms {} {} "" rfl

/-- C3: analyze is deterministic — it is a pure function of its feature
maps, two invocations on the same arguments return identical results; in
this embedding, where the source's dict reads are total, that is
definitional. -/
theorem analyze_deterministic (h : HtmlFeatures) (img : ImageFeatures) (u : String) :
    analyze h img u = analyze h img u := rfl

/-- C9: the url argument of analyze has no influence on the result: the
method receives it but never reads it. -/
theorem analyze_ignores_url (h : HtmlFeatures) (img : ImageFeatures) (u1 u2 : String) :
    analyze h img u1 = analyze h img u2 := rfl

/-- C4: the ranked violation list is sorted by severity descending (every
high-severity violation precedes every medium/low one regardless of
category), the sort is stable (for each severity key the sub-list with that
key equals the collection-order sub-list, i.e. category order then
declaration order), and the recommendation list starts with the
recommendation texts of the first 10 sorted violations. -/
theorem recommendations_ranked_by_severity_stable (h : HtmlFeatures)
    (img : ImageFeatures) (k : Nat) :
    List.Sorted severityGE (List.insertionSort severityGE (allRules h img)) ∧
    (List.insertionSort severityGE (allRules h img)).filter
        (fun r => decide (severity_order r.severity = k)) =
      (allRules h img).filter (fun r => decide (severity_order r.severity = k)) ∧
    ∃ t, generate_recommendations (allRules h img) =
      ((List.insertionSort severityGE (allRules h img)).take 10).map
        (fun r => r.recommendation) ++ t := by
  refine ⟨List.sorted_insertionSort severityGE _, filter_insertionSort_sev k _, ?_⟩
  rw [generate_recommendations_of_failed _ (fun r hr => (allRules_ok h img r hr).1)]
  by_cases hc : (((List.insertionSort severityGE (allRules h img)).take 10).map
      (fun r => r.recommendation)).length < 3
  · rw [if_pos hc]
    exact backfill_append _ _
  · rw [if_neg hc]
    exact ⟨[], (List.append_nil _).symm⟩

/-- C5: the recommendation list never exceeds 10 entries and never holds
two identical texts. -/
theorem recommendations_le_ten_and_nodup (h : HtmlFeatures) (img : ImageFeatures)
    (u : String) :
    (analyze h img u).recommendations.length ≤ 10 ∧
      (analyze h img u).recommendations.Nodup := by
  rw [analyze_recommendations,
    generate_recommendations_of_failed _ (fun r hr => (allRules_ok h img r hr).1)]
  set recs := ((List.insertionSort severityGE (allRules h img)).take 10).map
    (fun r => r.recommendation) with hrecs
  have hlen : recs.length ≤ 10 := by
    rw [hrecs, List.length_map, List.length_take]
    exact min_le_left _ _
  have hnd : recs.Nodup := by
    have h1 : ((allRules h img).map (fun r => r.recommendation)).Nodup :=
      allRules_texts_nodup h img
    have hperm :
        List.Perm ((List.insertionSort severityGE (allRules h img)).map
          (fun r => r.recommendation)) ((allRules h img).map (fun r => r.recommendation)) :=
      (List.perm_insertionSort severityGE (allRules h img)).map (fun r => r.recommendation)
    have h2 := hperm.nodup_iff.mpr h1
    rw [hrecs, List.map_take]
    exact h2.sublist (List.take_sublist _ _)
  by_cases hc : recs.length < 3
  · rw [if_pos hc]
    exact ⟨backfill_length_le _ _ hlen, backfill_nodup _ _ hnd⟩
  · rw [if_neg hc]
    exact ⟨hlen, hnd⟩

/-- C6: when no rule fires in any category, the total score is 100 and the
recommendation list is exactly the 3-entry generic pool in pool order. -/
theorem perfect_feature_map_scores_100 (h : HtmlFeatures) (img : ImageFeatures)
    (u : String) (hr : allRules h img = []) :
    (analyze h img u).total_score = 100 ∧
      (analyze h img u).recommendations = generic_recommendations := by
  have hsplit := hr
  rw [allRules] at hsplit
  simp only [List.append_eq_nil, and_assoc] at hsplit
  obtain ⟨h1, h2, h3, h4, h5, h6⟩ := hsplit
  constructor
  · have s1 : (analyze_information_architecture h img).score = 30 := by
      rw [analyze_ia_rules] at h1
      show (runCategory (max_scores "information_architecture") (iaTable h)).score = 30
      rw [runCategory_score, h1]
      decide
    have s2 : (analyze_cta_visibility h img).score = 20 := by
      rw [analyze_cta_rules] at h2
      show (runCategory (max_scores "cta_visibility") (ctaTable img)).score = 20
      rw [runCategory_score, h2]
      decide
    have s3 : (analyze_readability h img).score = 20 := by
      rw [analyze_read_rules] at h3
      show (runCategory (max_scores "readability") (readTable h img)).score = 20
      rw [runCategory_score, h3]
      decide
    have s4 : (analyze_form_ux h img).score = 15 := by
      rw [analyze_form_rules] at h4
      show (runCategory (max_scores "form_ux") (formTable h img)).score = 15
      rw [runCategory_score, h4]
      decide
    have s5 : (analyze_accessibility h img).score = 10 := by
      rw [analyze_a11y_rules] at h5
      show (runCategory (max_scores "accessibility") (a11yTable h img)).score = 10
      rw [runCategory_score, h5]
      decide
    have s6 : (analyze_performance h img).score = 5 := by
      rw [analyze_perf_rules] at h6
      show (runCategory (max_scores "performance") (perfTable h)).score = 5
      rw [runCategory_score, h6]
      decide
    have et : (analyze h img u).total_score =
        (analyze_information_architecture h img).score + (analyze_cta_visibility h img).score +
        (analyze_readability h img).score + (analyze_form_ux h img).score +
        (analyze_accessibility h img).score + (analyze_performance h img).score := rfl
    rw [et, s1, s2, s3, s4, s5, s6]
    decide
  · rw [analyze_recommendations, hr]
    decide

/-- A feature-map pair under which every check passes. -/
def fmPass : HtmlFeatures :=
  { heading_analysis := { has_h1 := true },
    navigation_analysis := { has_breadcrumbs := true },
    accessibility_analysis :=
      { alt_text_coverage := 1, aria_elements_count := 3, landmark_roles_count := 2 },
    meta_analysis :=
      { title_length := 20, description_length := 80, structured_data_count := 1,
        has_og_image := true } }

def imgPass : ImageFeatures :=
  { above_fold_analysis := { has_cta_above_fold := true },
    ocr_analysis := { button_texts := ["購入"] },
    element_detection := { button_candidates := 2 } }

/-- Witness for C6 at a concrete all-passing feature-map pair. -/
theorem perfect_feature_map_scores_100_witness :
    (analyze fmPass imgPass "").total_score = 100 ∧
      (analyze fmPass imgPass "").recommendations = generic_recommendations :=
  perfect_feature_map_scores_100 fmPass imgPass "" (by decide)

/-- C7: with alt_text_coverage = 0.5 (mkRat 1 2), no ARIA elements, no landmark roles
and low contrast, the accessibility category clamps 10-4-2-2-4 = -2 to 0
and fires exactly a11y_001..a11y_004 in declaration order. -/
theorem accessibility_scenario_clamps_to_zero (h : HtmlFeatures) (img : ImageFeatures)
    (u : String)
    (h1 : h.accessibility_analysis.alt_text_coverage = mkRat 1 2)
    (h2 : h.accessibility_analysis.aria_elements_count = 0)
    (h3 : h.accessibility_analysis.landmark_roles_count = 0)
    (h4 : img.contrast_analysis.is_low_contrast = true) :
    (analyze h img u).category_details.accessibility.score = 0 ∧
      (analyze h img u).category_details.accessibility.rules =
        [a11y_001, a11y_002, a11y_003, a11y_004] := by
  have hd : (analyze h img u).category_details.accessibility = analyze_accessibility h img := rfl
  have hacc : analyze_accessibility h img =
      runCategory (max_scores "accessibility") (a11yTable h img) := rfl
  have ht : a11yTable h img =
      [(true, a11y_001), (true, a11y_002), (true, a11y_003), (true, a11y_004)] := by
    simp only [a11yTable, h1, h2, h3, h4]
    norm_num
  rw [hd, hacc, ht]
  exact ⟨by decide, by decide⟩

/-- The C7 scenario as a concrete feature-map pair. -/
def fmA : HtmlFeatures :=
  { accessibility_analysis :=
      { alt_text_coverage := mkRat 1 2, aria_elements_count := 0, landmark_roles_count := 0 } }

def imgA : ImageFeatures := { contrast_analysis := { is_low_contrast := true } }

/-- Witness for C7 at the concrete scenario inputs. -/
theorem accessibility_scenario_witness :
    (analyze fmA imgA "").category_details.accessibility.score = 0 ∧
      (analyze fmA imgA "").category_details.accessibility.rules =
        [a11y_001, a11y_002, a11y_003, a11y_004] :=
  accessibility_scenario_clamps_to_zero fmA imgA "" rfl rfl rfl rfl

/-- C8: the weaknesses list is the first 3 entries of the
descending-by-percentage category list whose percentage is strictly below
50: every entry is below 50, there are at most 3, and any sub-50 category
left out has percentage no greater than every included one (the selection
keeps the highest-percentage members of the sub-50 set). -/
theorem weaknesses_top_of_sub_fifty (c : HeuristicScore) :
    summary_weaknesses c =
      ((sorted_category_scores c).filter (fun e => decide (e.percentage < 50))).take 3 ∧
    List.Sorted percentageGE (sorted_category_scores c) ∧
    (∀ e ∈ summary_weaknesses c, e.percentage < 50) ∧
    (summary_weaknesses c).length ≤ 3 ∧
    (∀ x ∈ summary_weaknesses c, ∀ y ∈ sorted_category_scores c,
      y.percentage < 50 → y ∉ summary_weaknesses c → y.percentage ≤ x.percentage) := by
  refine ⟨rfl, List.sorted_insertionSort percentageGE _, ?_, ?_, ?_⟩
  · intro e he
    have he2 : e ∈ (sorted_category_scores c).filter (fun e => decide (e.percentage < 50)) :=
      List.take_subset _ _ he
    have := (List.mem_filter.mp he2).2
    simpa using this
  · exact List.length_take_le _ _
  · intro x hx y hy hlt hyn
    have hsorted :
        List.Sorted percentageGE
          ((sorted_category_scores c).filter (fun e => decide (e.percentage < 50))) :=
      (List.sorted_insertionSort percentageGE _).filter _
    have hyf : y ∈ (sorted_category_scores c).filter (fun e => decide (e.percentage < 50)) :=
      List.mem_filter.mpr ⟨hy, by simpa using hlt⟩
    have hyd : y ∈
        ((sorted_category_scores c).filter (fun e => decide (e.percentage < 50))).drop 3 := by
      have hsplit : y ∈
          ((sorted_category_scores c).filter (fun e => decide (e.percentage < 50))).take 3 ++
          ((sorted_category_scores c).filter (fun e => decide (e.percentage < 50))).drop 3 := by
        rw [List.take_append_drop]
        exact hyf
      rcases List.mem_append.mp hsplit with hcase | hcase
      · exact absurd hcase hyn
      · exact hcase
    exact hsorted.rel_of_mem_take_of_mem_drop hx hyd

/-- The all-passing html features with exactly one failing check: no OGP
image, so only perf_003 (severity low) fires. -/
def fmOne : HtmlFeatures :=
  { heading_analysis := { has_h1 := true },
    navigation_analysis := { has_breadcrumbs := true },
    accessibility_analysis :=
      { alt_text_coverage := 1, aria_elements_count := 3, landmark_roles_count := 2 },
    meta_analysis :=
      { title_length := 20, description_length := 80, structured_data_count := 1,
        has_og_image := false } }

/-- C10 counterexample: with exactly one fired violation (fewer than 3) the
backfill loop appends all three generic entries, producing 4
recommendations, not exactly 3. -/
theorem backfill_not_exactly_three_counterexample :
    (allRules fmOne imgPass).length = 1 ∧
      (analyze fmOne imgPass "").recommendations.length = 4 ∧
      ¬ (analyze fmOne imgPass "").recommendations.length = 3 := by decide

theorem backfill_generic (acc : List String) (hlen : acc.length < 3)
    (hg : ∀ g ∈ generic_recommendations, g ∉ acc) :
    generic_recommendations.foldl backfillStep acc = acc ++ generic_recommendations :=
  foldl_backfill_three _ _ _ acc hlen
    (hg _ (by decide)) (hg _ (by decide)) (hg _ (by decide))
    (by decide) (by decide) (by decide)

/-- C10 (amended): the recommendation list always has at least 3 entries:
when fewer than 3 violation texts were produced, all 3 generic entries
(each distinct from every rule text) are appended, so the list ends with
between 3 and 5 entries rather than exactly 3. -/
theorem recommendations_at_least_three (h : HtmlFeatures) (img : ImageFeatures)
    (u : String) : 3 ≤ (analyze h img u).recommendations.length := by
  rw [analyze_recommendations,
    generate_recommendations_of_failed _ (fun r hr => (allRules_ok h img r hr).1)]
  set recs := ((List.insertionSort severityGE (allRules h img)).take 10).map
    (fun r => r.recommendation) with hrecs
  by_cases hc : recs.length < 3
  · rw [if_pos hc]
    have hnot : ∀ g ∈ generic_recommendations, g ∉ recs := by
      intro g hg hgr
      apply generic_not_in_catalog g hg
      have hmem1 : g ∈ (List.insertionSort severityGE (allRules h img)).map
          (fun r => r.recommendation) := by
        rw [hrecs] at hgr
        obtain ⟨r, hrr, rfl⟩ := List.mem_map.mp hgr
        exact List.mem_map_of_mem _ (List.take_subset _ _ hrr)
      have hmem2 : g ∈ (allRules h img).map (fun r => r.recommendation) :=
        ((List.perm_insertionSort severityGE (allRules h img)).map
          (fun r => r.recommendation)).subset hmem1
      exact (allRules_texts_sublist h img).subset hmem2
    rw [backfill_generic recs hc hnot, List.length_append,
      show generic_recommendations.length = 3 from by decide]
    omega
  · rw [if_neg hc]
    omega
